import Mathlib

/-!
# Tutorial 4 (`boards/Tutorial4/tutorial4.c`)

A shallow embedding of the AVR tutorial program: the two interrupt service
routines, the register writes `main` performs before its loop, and one
iteration of the loop.  Registers are 8 bits wide; they are modelled as
natural numbers and every store is reduced modulo `256`.
-/

namespace Tutorial4

/-! ## Bit numbers -/

/-- Port B bit 0 of the avr-libc device header `<avr/io.h>` for the ATmega16M1
family, where `PBn` is `n`. -/
def PB0 : Nat := 0
/-- Port B bit 1 of the device header. -/
def PB1 : Nat := 1
/-- Port B bit 2 of the device header. -/
def PB2 : Nat := 2
/-- Port B bit 6 of the device header. -/
def PB6 : Nat := 6

/-- Bit `PCIE0` of `PCICR` in the device header (bit 0). -/
def PCIE0 : Nat := 0
/-- Bit `PCINT6` of `PCMSK0` in the device header (bit 6). -/
def PCINT6 : Nat := 6
/-- Bit `WGM01` of `TCCR0A` in the device header (bit 1). -/
def WGM01 : Nat := 1
/-- Bit `CS00` of `TCCR0B` in the device header (bit 0). -/
def CS00 : Nat := 0
/-- Bit `CS02` of `TCCR0B` in the device header (bit 2); the source comment
gives `CS0[2:0] = 0b101` for `CS02 | CS00`. -/
def CS02 : Nat := 2
/-- Bit `OCIE0A` of `TIMSK0` in the device header (bit 1). -/
def OCIE0A : Nat := 1

/-- The macro `LED1_PIN`, defined as `PB0`. -/
def LED1_PIN : Nat := PB0
/-- The macro `LED2_PIN`, defined as `PB1`. -/
def LED2_PIN : Nat := PB1
/-- The macro `LED3_PIN`, defined as `PB2`. -/
def LED3_PIN : Nat := PB2
/-- The macro `PINOUT_1`, defined as `PB6`. -/
def PINOUT_1 : Nat := PB6

/-- The constant `counter_match_value`, an 8-bit unsigned `20`. -/
def counter_match_value : Nat := 20

/-! ## Bit helpers of avr-libc -/

/-- The avr-libc helper `_BV(bit)`, which is `1 << bit`. -/
def _BV (bit : Nat) : Nat := 1 <<< bit

/-- The C operator `~` on a non-negative `int` of the target (16 bits), as the
bit pattern of the result. -/
def compl16 (m : Nat) : Nat := 0xFFFF ^^^ m

/-- The avr-libc helper `bit_is_set(sfr, bit)`: `sfr & _BV(bit)` is non-zero. -/
def bit_is_set (sfr bit : Nat) : Bool := (sfr &&& _BV bit) != 0

/-! ## Machine state -/

/-- The registers the program touches, the global interrupt flag of `SREG`
and the global variable `gCounter`. -/
structure State where
  DDRB : Nat
  PORTB : Nat
  PINB : Nat
  PCICR : Nat
  PCMSK0 : Nat
  TCCR0A : Nat
  TCCR0B : Nat
  TIMSK0 : Nat
  OCR0A : Nat
  I : Bool
  gCounter : Nat
  deriving DecidableEq

/-! ## Interrupt service routines -/

/-- The body of `ISR(PCINT0_vect)`. -/
def PCINT0_vect (s : State) : State :=
  if bit_is_set s.PINB PINOUT_1 then
    { s with PORTB := (s.PORTB &&& compl16 (_BV LED1_PIN)) % 256 }
  else
    { s with PORTB := (s.PORTB ||| _BV LED1_PIN) % 256 }

/-- The body of `ISR(TIMER0_COMPA_vect)`. -/
def TIMER0_COMPA_vect (s : State) : State :=
  if s.gCounter == counter_match_value then
    { s with gCounter := 0, PORTB := (s.PORTB ^^^ _BV LED3_PIN) % 256 }
  else
    { s with gCounter := (s.gCounter + 1) % 256 }

/-- One iteration of the `while (1)` loop of `main`: the toggle of `LED2_PIN`;
the busy wait `_delay_ms(500)` changes no register. -/
def mainLoopIter (s : State) : State :=
  { s with PORTB := (s.PORTB ^^^ _BV LED2_PIN) % 256 }

/-- The state after `n` consecutive invocations of the timer handler. -/
def timerN : Nat → State → State
  | 0, s => s
  | n + 1, s => TIMER0_COMPA_vect (timerN n s)

/-- The number of invocations, among `n` consecutive invocations of the timer
handler, that take the branch holding `PORTB ^= _BV(LED3_PIN)`. -/
def timerToggles : Nat → State → Nat
  | 0, _ => 0
  | n + 1, s =>
    timerToggles n s + (if (timerN n s).gCounter == counter_match_value then 1 else 0)

/-! ## Initialisation sequence of `main` -/

/-- The registers written by `main`. -/
inductive Reg where
  | DDRB | PORTB | PCICR | PCMSK0 | TCCR0A | TCCR0B | TIMSK0 | OCR0A
  deriving DecidableEq

/-- The kinds of statement `main` executes before its loop. -/
inductive Op where
  /-- The statement `reg |= m`. -/
  | orEq (r : Reg) (m : Nat)
  /-- The statement `reg &= ~m`. -/
  | andNotEq (r : Reg) (m : Nat)
  /-- The statement `reg = v`. -/
  | assign (r : Reg) (v : Nat)
  /-- The call `sei()`. -/
  | sei
  deriving DecidableEq

/-- Read a register. -/
def State.get (s : State) : Reg → Nat
  | .DDRB => s.DDRB
  | .PORTB => s.PORTB
  | .PCICR => s.PCICR
  | .PCMSK0 => s.PCMSK0
  | .TCCR0A => s.TCCR0A
  | .TCCR0B => s.TCCR0B
  | .TIMSK0 => s.TIMSK0
  | .OCR0A => s.OCR0A

/-- Store into a register (8 bits). -/
def State.set (s : State) (r : Reg) (v : Nat) : State :=
  match r with
  | .DDRB => { s with DDRB := v % 256 }
  | .PORTB => { s with PORTB := v % 256 }
  | .PCICR => { s with PCICR := v % 256 }
  | .PCMSK0 => { s with PCMSK0 := v % 256 }
  | .TCCR0A => { s with TCCR0A := v % 256 }
  | .TCCR0B => { s with TCCR0B := v % 256 }
  | .TIMSK0 => { s with TIMSK0 := v % 256 }
  | .OCR0A => { s with OCR0A := v % 256 }

/-- Execute one statement. -/
def Op.exec (o : Op) (s : State) : State :=
  match o with
  | .orEq r m => s.set r (s.get r ||| m)
  | .andNotEq r m => s.set r (s.get r &&& compl16 m)
  | .assign r v => s.set r v
  | .sei => { s with I := true }

/-- The statements of `main` before `while (1)`, in program order. -/
def mainInitOps : List Op :=
  [ .orEq .DDRB (_BV LED1_PIN ||| _BV LED2_PIN ||| _BV LED3_PIN),
    .andNotEq .DDRB (_BV PINOUT_1),
    .orEq .PORTB (_BV PINOUT_1),
    .sei,
    .orEq .PCICR (_BV PCIE0),
    .orEq .PCMSK0 (_BV PCINT6),
    .orEq .TCCR0A (_BV WGM01),
    .orEq .TCCR0B (_BV CS02 ||| _BV CS00),
    .orEq .TIMSK0 (_BV OCIE0A),
    .assign .OCR0A 195 ]

/-- Run a list of statements in order. -/
def execOps (ops : List Op) (s : State) : State :=
  ops.foldl (fun st o => o.exec st) s

/-- The initialisation part of `main` (everything before the loop). -/
def mainInit (s : State) : State := execOps mainInitOps s

/-- In the statement list `ops`, `a` occurs, `b` occurs, and the first `a`
comes before the first `b`. -/
def occursBefore (ops : List Op) (a b : Op) : Prop :=
  a ∈ ops ∧ b ∈ ops ∧ ops.indexOf a < ops.indexOf b

instance (ops : List Op) (a b : Op) : Decidable (occursBefore ops a b) := by
  unfold occursBefore; infer_instance

/-! ## Interleavings -/

/-- What can happen between two instants: one of the two handlers runs to
completion, the main loop performs one iteration, or the outside world drives
the input pins of port B to new levels. -/
inductive Event where
  | timer
  | pinChange
  | mainLoop
  | input (pinb : Nat)
  deriving DecidableEq

/-- The effect of one event. -/
def Event.step (e : Event) (s : State) : State :=
  match e with
  | .timer => TIMER0_COMPA_vect s
  | .pinChange => PCINT0_vect s
  | .mainLoop => mainLoopIter s
  | .input pinb => { s with PINB := pinb % 256 }

/-- The effect of a finite sequence of events, first event first. -/
def run : List Event → State → State
  | [], s => s
  | e :: es, s => run es (e.step s)

/-- The direction register and the timer and interrupt configuration registers
of `t` are those of `s`. -/
def configUnchanged (s t : State) : Prop :=
  t.DDRB = s.DDRB ∧ t.PCICR = s.PCICR ∧ t.PCMSK0 = s.PCMSK0 ∧ t.TCCR0A = s.TCCR0A
    ∧ t.TCCR0B = s.TCCR0B ∧ t.TIMSK0 = s.TIMSK0 ∧ t.OCR0A = s.OCR0A

/-- The registers right after `main` has finished its initialisation on a
device whose input pin `PB6` is pulled high, with `gCounter` still zero; used
to instantiate the general statements below. -/
def afterInit : State :=
  { DDRB := 7, PORTB := 64, PINB := 64, PCICR := 1, PCMSK0 := 64, TCCR0A := 2,
    TCCR0B := 5, TIMSK0 := 2, OCR0A := 195, I := true, gCounter := 0 }

/-- The device after reset: every register `main` writes is zero and the global
interrupt flag is clear; the input pins read `pinb`. -/
def resetState (pinb : Nat) : State :=
  { DDRB := 0, PORTB := 0, PINB := pinb, PCICR := 0, PCMSK0 := 0, TCCR0A := 0,
    TCCR0B := 0, TIMSK0 := 0, OCR0A := 0, I := false, gCounter := 0 }

/-! ## Bit lemmas -/

theorem testBit_BV (b i : Nat) : (_BV b).testBit i = decide (b = i) := by
  unfold _BV
  rw [Nat.one_shiftLeft, Nat.testBit_two_pow]

theorem testBit_compl16 (m i : Nat) :
    (compl16 m).testBit i = xor (decide (i < 16)) (m.testBit i) := by
  unfold compl16
  have h : (0xFFFF : Nat) = 2 ^ 16 - 1 := by norm_num
  rw [Nat.testBit_xor, h, Nat.testBit_two_pow_sub_one]

theorem bit_is_set_eq (sfr bit : Nat) : bit_is_set sfr bit = sfr.testBit bit := by
  unfold bit_is_set _BV
  rw [Nat.one_shiftLeft]
  by_cases h : sfr.testBit bit
  · rw [h]
    have : (sfr &&& 2 ^ bit).testBit bit = true := by
      rw [Nat.testBit_and, h, Nat.testBit_two_pow_self]; rfl
    have hne : sfr &&& 2 ^ bit ≠ 0 := by
      intro h0
      rw [h0] at this
      simp at this
    simpa using hne
  · have hf : sfr.testBit bit = false := by simpa using h
    rw [hf]
    have : sfr &&& 2 ^ bit = 0 := by
      apply Nat.eq_of_testBit_eq
      intro i
      rw [Nat.testBit_and, Nat.testBit_two_pow, Nat.zero_testBit]
      by_cases hi : bit = i
      · subst hi; simp [hf]
      · simp [hi]
    simp [this]

theorem mod256_testBit (x i : Nat) :
    (x % 256).testBit i = (decide (i < 8) && x.testBit i) := by
  have h : (256 : Nat) = 2 ^ 8 := by norm_num
  rw [h, Nat.testBit_mod_two_pow]

theorem clear_idem (p m : Nat) :
    ((p &&& compl16 m) % 256 &&& compl16 m) % 256 = (p &&& compl16 m) % 256 := by
  apply Nat.eq_of_testBit_eq
  intro i
  simp only [mod256_testBit, Nat.testBit_and]
  cases decide (i < 8) <;> cases p.testBit i <;> cases (compl16 m).testBit i <;> rfl

theorem set_idem (p m : Nat) :
    ((p ||| m) % 256 ||| m) % 256 = (p ||| m) % 256 := by
  apply Nat.eq_of_testBit_eq
  intro i
  simp only [mod256_testBit, Nat.testBit_or]
  cases decide (i < 8) <;> cases p.testBit i <;> cases m.testBit i <;> rfl

/-! ## The pin-change handler -/

/-- Claim C3: for every state, after one invocation of the pin-change handler
the `LED1_PIN` bit of `PORTB` is the complement of the `PINOUT_1` bit of `PINB`
read at invocation time (input high gives output low, input low gives output
high), the handler leaves `PINB` alone, and a second invocation yields the same
state as the first. -/
theorem PCINT0_vect_mirror (s : State) :
    (PCINT0_vect s).PORTB.testBit LED1_PIN = !(s.PINB.testBit PINOUT_1)
    ∧ (s.PINB.testBit PINOUT_1 = true → (PCINT0_vect s).PORTB.testBit LED1_PIN = false)
    ∧ (s.PINB.testBit PINOUT_1 = false → (PCINT0_vect s).PORTB.testBit LED1_PIN = true)
    ∧ (PCINT0_vect s).PINB = s.PINB
    ∧ PCINT0_vect (PCINT0_vect s) = PCINT0_vect s := by
  have key : (PCINT0_vect s).PORTB.testBit LED1_PIN = !(s.PINB.testBit PINOUT_1) := by
    unfold PCINT0_vect
    rw [bit_is_set_eq]
    cases h : s.PINB.testBit PINOUT_1
    · simp only [Bool.false_eq_true, if_false, mod256_testBit, Nat.testBit_or, testBit_BV]
      simp [LED1_PIN, PB0]
    · simp only [if_true, mod256_testBit, Nat.testBit_and, testBit_compl16, testBit_BV]
      simp [LED1_PIN, PB0]
  have hpin : (PCINT0_vect s).PINB = s.PINB := by
    unfold PCINT0_vect
    split <;> rfl
  refine ⟨key, ?_, ?_, hpin, ?_⟩
  · intro h; rw [key, h]; rfl
  · intro h; rw [key, h]; rfl
  · unfold PCINT0_vect
    cases h : bit_is_set s.PINB PINOUT_1
    · simp [h, set_idem]
    · simp [h, clear_idem]

/-! ## The timer handler -/

theorem timer_gCounter_of_match (t : State) (h : t.gCounter = counter_match_value) :
    (TIMER0_COMPA_vect t).gCounter = 0 := by
  unfold TIMER0_COMPA_vect
  simp [h]

theorem timer_gCounter_of_ne (t : State) (h : t.gCounter ≠ counter_match_value) :
    (TIMER0_COMPA_vect t).gCounter = (t.gCounter + 1) % 256 := by
  unfold TIMER0_COMPA_vect
  simp [h]

theorem timer_LED3_of_match (t : State) (h : t.gCounter = counter_match_value) :
    (TIMER0_COMPA_vect t).PORTB.testBit LED3_PIN = !(t.PORTB.testBit LED3_PIN) := by
  unfold TIMER0_COMPA_vect
  simp only [h, beq_self_eq_true, if_true, mod256_testBit, Nat.testBit_xor, testBit_BV]
  have h8 : LED3_PIN < 8 := by decide
  simp [h8]

theorem timer_PORTB_of_ne (t : State) (h : t.gCounter ≠ counter_match_value) :
    (TIMER0_COMPA_vect t).PORTB = t.PORTB := by
  unfold TIMER0_COMPA_vect
  simp [h]

/-- After `N` invocations from `gCounter = 0` the counter is `N % 21` and the
`LED3_PIN` bit has been flipped `N / 21` times. -/
theorem timerN_spec (s : State) (h0 : s.gCounter = 0) (N : Nat) :
    (timerN N s).gCounter = N % 21
    ∧ (timerN N s).PORTB.testBit LED3_PIN
        = xor (s.PORTB.testBit LED3_PIN) (decide (N / 21 % 2 = 1)) := by
  induction N with
  | zero => simp [timerN, h0]
  | succ n ih =>
    obtain ⟨ihc, ihb⟩ := ih
    show (TIMER0_COMPA_vect (timerN n s)).gCounter = (n + 1) % 21
      ∧ (TIMER0_COMPA_vect (timerN n s)).PORTB.testBit LED3_PIN
          = xor (s.PORTB.testBit LED3_PIN) (decide ((n + 1) / 21 % 2 = 1))
    by_cases hm : (timerN n s).gCounter = counter_match_value
    · have h20 : n % 21 = 20 := by rw [← ihc, hm]; rfl
      rw [timer_gCounter_of_match _ hm, timer_LED3_of_match _ hm, ihb]
      refine ⟨by omega, ?_⟩
      have hq : (n + 1) / 21 = n / 21 + 1 := by omega
      rw [hq]
      by_cases hp : n / 21 % 2 = 1
      · have hp2 : ¬ ((n / 21 + 1) % 2 = 1) := by omega
        simp [hp, hp2]
      · have hp2 : (n / 21 + 1) % 2 = 1 := by omega
        simp [hp, hp2]
    · have h20 : n % 21 ≠ 20 := by
        intro h; apply hm; rw [ihc, h]; rfl
      rw [timer_gCounter_of_ne _ hm, timer_PORTB_of_ne _ hm, ihb, ihc]
      have hq : (n + 1) / 21 = n / 21 := by omega
      rw [hq]
      exact ⟨by omega, rfl⟩

/-- Claim C1: starting from `gCounter = 0` (with `counter_match_value = 20`),
after `N` consecutive invocations of the timer handler `gCounter` equals
`N mod 21`. -/
theorem timerN_gCounter (s : State) (N : Nat) (h0 : s.gCounter = 0) :
    (timerN N s).gCounter = N % 21 :=
  (timerN_spec s h0 N).1

/-- Claim C2: starting from `gCounter = 0` and any `PORTB`, after `N`
consecutive invocations of the timer handler the `LED3_PIN` bit of `PORTB` is
its initial value XOR `(N / 21) mod 2`; in particular it is unchanged after 20
invocations and flipped after the 21st. -/
theorem timerN_LED3 (s : State) (N : Nat) (h0 : s.gCounter = 0) :
    (timerN N s).PORTB.testBit LED3_PIN
        = xor (s.PORTB.testBit LED3_PIN) (decide (N / 21 % 2 = 1))
    ∧ (timerN 20 s).PORTB.testBit LED3_PIN = s.PORTB.testBit LED3_PIN
    ∧ (timerN 21 s).PORTB.testBit LED3_PIN = !(s.PORTB.testBit LED3_PIN) := by
  refine ⟨(timerN_spec s h0 N).2, ?_, ?_⟩
  · rw [(timerN_spec s h0 20).2]; simp
  · rw [(timerN_spec s h0 21).2]; simp

/-! ## Frame conditions of the three execution contexts -/

theorem PCINT0_vect_gCounter (s : State) : (PCINT0_vect s).gCounter = s.gCounter := by
  unfold PCINT0_vect
  split <;> rfl

theorem PCINT0_vect_other_bits (s : State) (i : Nat) (hi : i < 8) (hne : i ≠ LED1_PIN) :
    (PCINT0_vect s).PORTB.testBit i = s.PORTB.testBit i := by
  have hne2 : ¬ (LED1_PIN = i) := fun h => hne h.symm
  have h16 : i < 16 := by omega
  unfold PCINT0_vect
  split
  · simp only [mod256_testBit, Nat.testBit_and, testBit_compl16, testBit_BV]
    simp [hi, h16, hne2]
  · simp only [mod256_testBit, Nat.testBit_or, testBit_BV]
    simp [hi, hne2]

theorem TIMER0_COMPA_vect_other_bits (s : State) (i : Nat) (hi : i < 8)
    (hne : i ≠ LED3_PIN) :
    (TIMER0_COMPA_vect s).PORTB.testBit i = s.PORTB.testBit i := by
  have hne2 : ¬ (LED3_PIN = i) := fun h => hne h.symm
  unfold TIMER0_COMPA_vect
  split
  · simp only [mod256_testBit, Nat.testBit_xor, testBit_BV]
    simp [hi, hne2]
  · rfl

theorem mainLoopIter_other_bits (s : State) (i : Nat) (hi : i < 8) (hne : i ≠ LED2_PIN) :
    (mainLoopIter s).PORTB.testBit i = s.PORTB.testBit i := by
  have hne2 : ¬ (LED2_PIN = i) := fun h => hne h.symm
  unfold mainLoopIter
  simp only [mod256_testBit, Nat.testBit_xor, testBit_BV]
  simp [hi, hne2]

theorem mainLoopIter_LED2 (s : State) :
    (mainLoopIter s).PORTB.testBit LED2_PIN = !(s.PORTB.testBit LED2_PIN) := by
  unfold mainLoopIter
  simp only [mod256_testBit, Nat.testBit_xor, testBit_BV]
  have h8 : LED2_PIN < 8 := by decide
  simp [h8]

theorem PCINT0_vect_config (s : State) : configUnchanged s (PCINT0_vect s) := by
  unfold configUnchanged PCINT0_vect
  split <;> exact ⟨rfl, rfl, rfl, rfl, rfl, rfl, rfl⟩

theorem TIMER0_COMPA_vect_config (s : State) :
    configUnchanged s (TIMER0_COMPA_vect s) := by
  unfold configUnchanged TIMER0_COMPA_vect
  split <;> exact ⟨rfl, rfl, rfl, rfl, rfl, rfl, rfl⟩

theorem mainLoopIter_config (s : State) : configUnchanged s (mainLoopIter s) :=
  ⟨rfl, rfl, rfl, rfl, rfl, rfl, rfl⟩

/-- Claim C7: each execution context writes only its own output pin.  For every
state and every bit `i` of the 8-bit `PORTB`: one invocation of the pin-change
handler leaves `gCounter` and every bit other than `LED1_PIN` unchanged; one
invocation of the timer handler leaves every bit other than `LED3_PIN`
unchanged; one main-loop iteration leaves `gCounter` and every bit other than
`LED2_PIN` unchanged; none of the three changes `DDRB` or a timer or interrupt
configuration register. -/
theorem each_context_writes_own_pin (s : State) (i : Nat) (hi : i < 8) :
    ((PCINT0_vect s).gCounter = s.gCounter
      ∧ (i ≠ LED1_PIN → (PCINT0_vect s).PORTB.testBit i = s.PORTB.testBit i))
    ∧ (i ≠ LED3_PIN → (TIMER0_COMPA_vect s).PORTB.testBit i = s.PORTB.testBit i)
    ∧ ((mainLoopIter s).gCounter = s.gCounter
      ∧ (i ≠ LED2_PIN → (mainLoopIter s).PORTB.testBit i = s.PORTB.testBit i))
    ∧ configUnchanged s (PCINT0_vect s)
    ∧ configUnchanged s (TIMER0_COMPA_vect s)
    ∧ configUnchanged s (mainLoopIter s) :=
  ⟨⟨PCINT0_vect_gCounter s, PCINT0_vect_other_bits s i hi⟩,
    TIMER0_COMPA_vect_other_bits s i hi,
    ⟨rfl, mainLoopIter_other_bits s i hi⟩,
    PCINT0_vect_config s, TIMER0_COMPA_vect_config s, mainLoopIter_config s⟩

/-! ## Interleavings of the three contexts -/

theorem step_gCounter_le (e : Event) (s : State) (h : s.gCounter ≤ 20) :
    (e.step s).gCounter ≤ 20 := by
  cases e with
  | timer =>
    show (TIMER0_COMPA_vect s).gCounter ≤ 20
    by_cases hm : s.gCounter = counter_match_value
    · rw [timer_gCounter_of_match _ hm]; omega
    · rw [timer_gCounter_of_ne _ hm]
      have : s.gCounter ≠ 20 := hm
      omega
  | pinChange =>
    show (PCINT0_vect s).gCounter ≤ 20
    rw [PCINT0_vect_gCounter]; exact h
  | mainLoop => exact h
  | input v => exact h

theorem run_gCounter_le (evs : List Event) (s : State) (h : s.gCounter ≤ 20) :
    (run evs s).gCounter ≤ 20 := by
  induction evs generalizing s with
  | nil => exact h
  | cons e es ih => exact ih (e.step s) (step_gCounter_le e s h)

/-- Claim C4: in every state reachable from `gCounter = 0` by a finite sequence
of timer-handler, pin-change-handler and main-loop steps (and changes of the
input pins), `gCounter` is in `[0, 20]`; whenever the timer handler takes its
increment branch there, `gCounter < 20`, so the 8-bit increment yields
`gCounter + 1` without wrapping modulo 256. -/
theorem gCounter_in_range (s : State) (evs : List Event) (h0 : s.gCounter = 0) :
    0 ≤ (run evs s).gCounter ∧ (run evs s).gCounter ≤ 20
    ∧ ((run evs s).gCounter ≠ counter_match_value →
        (run evs s).gCounter < 20 ∧ (run evs s).gCounter + 1 < 256
        ∧ (TIMER0_COMPA_vect (run evs s)).gCounter = (run evs s).gCounter + 1) := by
  have hle : (run evs s).gCounter ≤ 20 := run_gCounter_le evs s (by omega)
  refine ⟨Nat.zero_le _, hle, ?_⟩
  intro hne
  have hne2 : (run evs s).gCounter ≠ 20 := hne
  refine ⟨by omega, by omega, ?_⟩
  rw [timer_gCounter_of_ne _ hne]
  omega

theorem step_LED2 (e : Event) (s : State) :
    (e.step s).PORTB.testBit LED2_PIN
      = xor (s.PORTB.testBit LED2_PIN) (decide (e = Event.mainLoop)) := by
  cases e with
  | timer =>
    show (TIMER0_COMPA_vect s).PORTB.testBit LED2_PIN = _
    rw [TIMER0_COMPA_vect_other_bits s LED2_PIN (by decide) (by decide)]; simp
  | pinChange =>
    show (PCINT0_vect s).PORTB.testBit LED2_PIN = _
    rw [PCINT0_vect_other_bits s LED2_PIN (by decide) (by decide)]; simp
  | mainLoop =>
    show (mainLoopIter s).PORTB.testBit LED2_PIN = _
    rw [mainLoopIter_LED2]; simp
  | input v => simp [Event.step]

theorem run_LED2 (evs : List Event) (s : State) :
    (run evs s).PORTB.testBit LED2_PIN
      = xor (s.PORTB.testBit LED2_PIN) (decide (evs.count Event.mainLoop % 2 = 1)) := by
  induction evs generalizing s with
  | nil => simp [run]
  | cons e es ih =>
    show (run es (e.step s)).PORTB.testBit LED2_PIN = _
    rw [ih (e.step s), step_LED2 e s, List.count_cons]
    by_cases he : e = Event.mainLoop
    · subst he
      by_cases hp : List.count Event.mainLoop es % 2 = 1
      · have hp2 : ¬ ((List.count Event.mainLoop es + 1) % 2 = 1) := by omega
        simp [hp, hp2]
      · have hp2 : (List.count Event.mainLoop es + 1) % 2 = 1 := by omega
        simp [hp, hp2]
    · simp [he]

/-- Claim C6: for every finite interleaving of main-loop iterations,
pin-change-handler invocations and timer-handler invocations (each run to
completion, with the input pins free to change in between) from any starting
state, the `LED2_PIN` bit of `PORTB` is its initial value XOR `k mod 2`, where
`k` is the number of main-loop iterations in the interleaving: a main-loop
iteration flips the bit and neither handler changes it. -/
theorem LED2_counts_main_loop (s : State) (evs : List Event) :
    (run evs s).PORTB.testBit LED2_PIN
      = xor (s.PORTB.testBit LED2_PIN) (decide (evs.count Event.mainLoop % 2 = 1))
    ∧ (mainLoopIter s).PORTB.testBit LED2_PIN = !(s.PORTB.testBit LED2_PIN)
    ∧ (PCINT0_vect s).PORTB.testBit LED2_PIN = s.PORTB.testBit LED2_PIN
    ∧ (TIMER0_COMPA_vect s).PORTB.testBit LED2_PIN = s.PORTB.testBit LED2_PIN :=
  ⟨run_LED2 evs s, mainLoopIter_LED2 s,
    PCINT0_vect_other_bits s LED2_PIN (by decide) (by decide),
    TIMER0_COMPA_vect_other_bits s LED2_PIN (by decide) (by decide)⟩

/-! ## The initialisation sequence -/

/-- Claim C8: starting from the reset state (`DDRB`, `PORTB`, `PCICR`, `PCMSK0`,
`TCCR0A`, `TCCR0B`, `TIMSK0`, `OCR0A` zero, global interrupt flag clear), after
the initialisation sequence of `main`: `DDRB` has exactly bits `PB0`, `PB1`,
`PB2` set and `PB6` clear; `PORTB` has exactly bit `PB6` set; `PCICR` has
`PCIE0` set; `PCMSK0` has `PCINT6` set; `TCCR0A` has `WGM01` set; `TCCR0B` is
`CS02 | CS00`; `TIMSK0` has `OCIE0A` set; `OCR0A` is 195; the global interrupt
flag is set. -/
theorem mainInit_from_reset (s : State)
    (hDDRB : s.DDRB = 0) (hPORTB : s.PORTB = 0) (hPCICR : s.PCICR = 0)
    (hPCMSK0 : s.PCMSK0 = 0) (hTCCR0A : s.TCCR0A = 0) (hTCCR0B : s.TCCR0B = 0)
    (hTIMSK0 : s.TIMSK0 = 0) (hOCR0A : s.OCR0A = 0) (hI : s.I = false) :
    (mainInit s).DDRB = (_BV PB0 ||| _BV PB1 ||| _BV PB2)
    ∧ (mainInit s).DDRB.testBit PB6 = false
    ∧ (mainInit s).PORTB = _BV PB6
    ∧ (mainInit s).PCICR.testBit PCIE0 = true
    ∧ (mainInit s).PCMSK0.testBit PCINT6 = true
    ∧ (mainInit s).TCCR0A.testBit WGM01 = true
    ∧ (mainInit s).TCCR0B = (_BV CS02 ||| _BV CS00)
    ∧ (mainInit s).TIMSK0.testBit OCIE0A = true
    ∧ (mainInit s).OCR0A = 195
    ∧ (mainInit s).I = true := by
  obtain ⟨ddrb, portb, pinb, pcicr, pcmsk0, tccr0a, tccr0b, timsk0, ocr0a, iflag, gc⟩ := s
  simp only at hDDRB hPORTB hPCICR hPCMSK0 hTCCR0A hTCCR0B hTIMSK0 hOCR0A hI
  subst hDDRB hPORTB hPCICR hPCMSK0 hTCCR0A hTCCR0B hTIMSK0 hOCR0A hI
  simp [mainInit, execOps, mainInitOps, Op.exec, State.set, State.get, _BV, compl16,
    PB0, PB1, PB2, PB6, LED1_PIN, LED2_PIN, LED3_PIN, PINOUT_1, PCIE0, PCINT6, WGM01,
    CS00, CS02, OCIE0A]
  decide

/-- Claim C10: in the statements `main` performs before its loop, the pin
direction writes (`DDRB` set for `PB0..PB2`, `DDRB` cleared for `PB6`) and the
pull-up write (`PORTB` bit `PB6` set) all occur before every
interrupt-enabling operation (`sei`, `PCICR` `PCIE0`, `PCMSK0` `PCINT6`,
`TIMSK0` `OCIE0A`); each statement occurs once. -/
theorem pins_configured_before_interrupts :
    mainInitOps.Nodup
    ∧ ∀ a ∈ [Op.orEq .DDRB (_BV LED1_PIN ||| _BV LED2_PIN ||| _BV LED3_PIN),
              Op.andNotEq .DDRB (_BV PINOUT_1),
              Op.orEq .PORTB (_BV PINOUT_1)],
        ∀ b ∈ [Op.sei, Op.orEq .PCICR (_BV PCIE0), Op.orEq .PCMSK0 (_BV PCINT6),
                Op.orEq .TIMSK0 (_BV OCIE0A)],
          occursBefore mainInitOps a b := by
  decide

/-- Claim C5, as stated, fails: it is not the case that the mode, prescaler
and compare-value writes all occur before the `TIMSK0` write and that the
`TIMSK0` write occurs before `sei`. -/
theorem timer_order_as_claimed_fails :
    ¬ (occursBefore mainInitOps (Op.orEq .TCCR0A (_BV WGM01)) (Op.orEq .TIMSK0 (_BV OCIE0A))
      ∧ occursBefore mainInitOps (Op.orEq .TCCR0B (_BV CS02 ||| _BV CS00))
          (Op.orEq .TIMSK0 (_BV OCIE0A))
      ∧ occursBefore mainInitOps (Op.assign .OCR0A 195) (Op.orEq .TIMSK0 (_BV OCIE0A))
      ∧ occursBefore mainInitOps (Op.orEq .TIMSK0 (_BV OCIE0A)) Op.sei) := by
  decide

/-- Claim C5, amended: in the statements `main` performs before its loop, the
timer mode write (`TCCR0A` `WGM01`) and the prescaler write (`TCCR0B`
`CS02 | CS00`) occur before the write that enables the compare-match interrupt
(`TIMSK0` `OCIE0A`); the compare-value write (`OCR0A = 195`) occurs after that
write; and `sei` occurs before all four of these writes, so that from reset the
global interrupt flag is already set after the fourth statement while `TCCR0A`,
`TCCR0B` and `OCR0A` are still zero.  Each statement occurs once. -/
theorem timer_order_in_main :
    mainInitOps.Nodup
    ∧ occursBefore mainInitOps (Op.orEq .TCCR0A (_BV WGM01)) (Op.orEq .TIMSK0 (_BV OCIE0A))
    ∧ occursBefore mainInitOps (Op.orEq .TCCR0B (_BV CS02 ||| _BV CS00))
        (Op.orEq .TIMSK0 (_BV OCIE0A))
    ∧ occursBefore mainInitOps (Op.orEq .TIMSK0 (_BV OCIE0A)) (Op.assign .OCR0A 195)
    ∧ (∀ b ∈ [Op.orEq .TCCR0A (_BV WGM01), Op.orEq .TCCR0B (_BV CS02 ||| _BV CS00),
              Op.orEq .TIMSK0 (_BV OCIE0A), Op.assign .OCR0A 195],
        occursBefore mainInitOps Op.sei b)
    ∧ ∀ pinb : Nat,
        (execOps (mainInitOps.take 4) (resetState pinb)).I = true
        ∧ (execOps (mainInitOps.take 4) (resetState pinb)).TCCR0A = 0
        ∧ (execOps (mainInitOps.take 4) (resetState pinb)).TCCR0B = 0
        ∧ (execOps (mainInitOps.take 4) (resetState pinb)).OCR0A = 0 := by
  refine ⟨by decide, by decide, by decide, by decide, by decide, ?_⟩
  intro pinb
  exact ⟨rfl, rfl, rfl, rfl⟩

/-! ## How often the timer handler toggles -/

theorem timerToggles_spec (s : State) (h0 : s.gCounter = 0) (N : Nat) :
    timerToggles N s = N / 21 := by
  induction N with
  | zero => rfl
  | succ n ih =>
    show timerToggles n s
        + (if (timerN n s).gCounter == counter_match_value then 1 else 0) = (n + 1) / 21
    rw [ih, (timerN_spec s h0 n).1]
    by_cases h20 : n % 21 = 20
    · have hb : (n % 21 == counter_match_value) = true := by
        rw [h20]; rfl
      rw [hb, if_pos rfl]
      omega
    · have hb : (n % 21 == counter_match_value) = false := by
        simpa [counter_match_value] using h20
      rw [hb]
      simp only [Bool.false_eq_true, if_false]
      omega

/-- Claim C9 evaluated on the code: starting from `gCounter = 0`, the timer
handler has executed its toggle of `LED3_PIN` `N / 21` times after `N`
invocations; after 20 invocations it has not toggled at all, whereas
`20 / 20 = 1`, and the first toggle happens on invocation 21. -/
theorem timerToggles_every_21 (s : State) (N : Nat) :
    timerToggles N { s with gCounter := 0 } = N / 21
    ∧ timerToggles 20 { s with gCounter := 0 } = 0
    ∧ timerToggles 20 { s with gCounter := 0 } ≠ 20 / 20
    ∧ timerToggles 21 { s with gCounter := 0 } = 1 := by
  have h := timerToggles_spec { s with gCounter := 0 } rfl
  refine ⟨h N, h 20, ?_, h 21⟩
  rw [h 20]
  decide

/-! ## Instances at concrete states -/

/-- Instance of C1: 43 invocations from the state after initialisation. -/
theorem timerN_gCounter_witness :
    afterInit.gCounter = 0 ∧ (timerN 43 afterInit).gCounter = 43 % 21 :=
  ⟨rfl, timerN_gCounter afterInit 43 rfl⟩

/-- Instance of C2: 43 invocations from the state after initialisation. -/
theorem timerN_LED3_witness :
    afterInit.gCounter = 0
    ∧ ((timerN 43 afterInit).PORTB.testBit LED3_PIN
        = xor (afterInit.PORTB.testBit LED3_PIN) (decide (43 / 21 % 2 = 1))
      ∧ (timerN 20 afterInit).PORTB.testBit LED3_PIN = afterInit.PORTB.testBit LED3_PIN
      ∧ (timerN 21 afterInit).PORTB.testBit LED3_PIN
          = !(afterInit.PORTB.testBit LED3_PIN)) :=
  ⟨rfl, timerN_LED3 afterInit 43 rfl⟩

/-- Instance of C4: a short interleaving from the state after initialisation. -/
theorem gCounter_in_range_witness :
    afterInit.gCounter = 0
    ∧ (run [Event.timer, Event.pinChange, Event.mainLoop, Event.timer] afterInit).gCounter
        ≠ counter_match_value
    ∧ (run [Event.timer, Event.pinChange, Event.mainLoop, Event.timer] afterInit).gCounter < 20
    ∧ (TIMER0_COMPA_vect
          (run [Event.timer, Event.pinChange, Event.mainLoop, Event.timer] afterInit)).gCounter
        = (run [Event.timer, Event.pinChange, Event.mainLoop, Event.timer]
            afterInit).gCounter + 1 :=
  ⟨rfl, by decide,
    ((gCounter_in_range afterInit
        [Event.timer, Event.pinChange, Event.mainLoop, Event.timer] rfl).2.2
      (by decide)).1,
    ((gCounter_in_range afterInit
        [Event.timer, Event.pinChange, Event.mainLoop, Event.timer] rfl).2.2
      (by decide)).2.2⟩

/-- Instance of C7: bit 6 of `PORTB` in the state after initialisation. -/
theorem each_context_writes_own_pin_witness :
    6 < 8
    ∧ (PCINT0_vect afterInit).PORTB.testBit 6 = afterInit.PORTB.testBit 6
    ∧ (TIMER0_COMPA_vect afterInit).PORTB.testBit 6 = afterInit.PORTB.testBit 6
    ∧ (mainLoopIter afterInit).PORTB.testBit 6 = afterInit.PORTB.testBit 6 :=
  ⟨by decide,
    (each_context_writes_own_pin afterInit 6 (by decide)).1.2 (by decide),
    (each_context_writes_own_pin afterInit 6 (by decide)).2.1 (by decide),
    (each_context_writes_own_pin afterInit 6 (by decide)).2.2.1.2 (by decide)⟩

/-- Instance of C8: the reset state with the input pin `PB6` pulled high. -/
theorem mainInit_from_reset_witness :
    (resetState 64).DDRB = 0 ∧ (resetState 64).I = false
    ∧ (mainInit (resetState 64)).DDRB = 7
    ∧ (mainInit (resetState 64)).PORTB = 64
    ∧ (mainInit (resetState 64)).TCCR0B = 5
    ∧ (mainInit (resetState 64)).OCR0A = 195
    ∧ (mainInit (resetState 64)).I = true :=
  have h := mainInit_from_reset (resetState 64) rfl rfl rfl rfl rfl rfl rfl rfl rfl
  ⟨rfl, rfl, h.1, h.2.2.1, h.2.2.2.2.2.2.1, h.2.2.2.2.2.2.2.2.1, h.2.2.2.2.2.2.2.2.2⟩

end Tutorial4
